import Mathlib

/-!
Verification of the sandbox GitHub client and its repository cache.

The development shallowly embeds the Go source:
- the authenticated request pipeline built in `NewClient` (the token-stamping
  visitor is taken verbatim from the source; the surrounding
  `httpclient.ApiClient.Do` behaviour, an external collaborator, is modelled
  from the spec),
- the API surface operations (`Versions`, `CreateRelease`, `GetRepo`,
  `ListRepositories`, `ListRuns`, `CompareCommits`, pull-request operations),
- the TTL-bound repository cache (`NewRepositoryCache`, `repositoryCache.Load`;
  the generic `localcache.LocalCache` it delegates to is not part of the given
  sources, so it is modelled from the spec).
-/

namespace GithubSpec

/-- A JSON value, used to model request payloads and response bodies. -/
inductive JValue where
  | str (s : String)
  | num (n : Int)
  | jbool (b : Bool)
  | arr (xs : List JValue)
  | obj (fields : List (String × JValue))
  | null

/-- Credential produced by the Token Source: scheme name plus bearer value. -/
structure Credential where
  tokenType : String
  accessToken : String
deriving Repr, DecidableEq

/-- An outgoing HTTP request: verb, full URL, headers and an optional JSON body. -/
structure HttpRequest where
  method : String
  url : String
  headers : List (String × String)
  reqBody : Option JValue

/-- `r.Header.Set(k, v)`: replace any existing value of the header `k` by `v`. -/
def setHeader (r : HttpRequest) (k v : String) : HttpRequest :=
  { r with headers := (k, v) :: r.headers.filter (fun p => p.1 ≠ k) }

/-- Look a header up (first value wins, matching `Header.Get`). -/
def getHeader (r : HttpRequest) (k : String) : Option String :=
  (r.headers.find? (fun p => p.1 = k)).map Prod.snd

/-- Outcome of one call of the Token Source, `cfg.Token()`. -/
abbrev TokenOutcome := Except String Credential

/-- The request visitor installed by `NewClient`: fetch a token; on failure
return the wrapped error `"token: <err>"`; on success set the Authorization
header to `"<tokenType> <accessToken>"` (from `fmt.Sprintf("%s %s", ...)`). -/
def authVisitor (tok : TokenOutcome) (r : HttpRequest) : Except String HttpRequest :=
  match tok with
  | .error e => .error ("token: " ++ e)
  | .ok token =>
      .ok (setHeader r "Authorization" (token.tokenType ++ " " ++ token.accessToken))

/-- An HTTP response from the transport: status code and JSON body. -/
structure HttpResponse where
  status : Nat
  respBody : JValue

/-- Errors surfaced by the request pipeline. -/
inductive PipelineError where
  | visitorError (msg : String)
  | apiError (status : Nat) (respBody : JValue)
  | decodeError

/-- `is2xx st` holds when the response status is a success status. -/
def is2xx (st : Nat) : Bool := decide (200 ≤ st) && decide (st < 300)

/-- Result of `ApiClient.Do`: either aborted before any network call, or
dispatched (recording the request actually sent) with a result. -/
inductive DoResult (α : Type) where
  | aborted (err : String)
  | dispatched (sent : HttpRequest) (result : Except PipelineError α)

/-- Modelled from the spec: `httpclient.ApiClient.Do` (external collaborator,
configured by `NewClient`). Before dispatch it invokes the configured
visitors; a visitor failure aborts the call without making any network call.
On success it dispatches the visited request; a non-2xx response is surfaced
as an error carrying status and body, never unmarshalled into the success
target; a 2xx response body is deserialized into the caller-supplied
target shape. -/
def apiDo {α : Type} (visitor : HttpRequest → Except String HttpRequest)
    (transport : HttpRequest → HttpResponse)
    (decode : JValue → Option α)
    (method url : String) (payload : Option JValue) : DoResult α :=
  let r0 : HttpRequest := ⟨method, url, [], payload⟩
  match visitor r0 with
  | .error e => .aborted e
  | .ok r =>
      let resp := transport r
      if is2xx resp.status then
        match decode resp.respBody with
        | some v => .dispatched r (.ok v)
        | none => .dispatched r (.error .decodeError)
      else
        .dispatched r (.error (.apiError resp.status resp.respBody))

/-- Base endpoint of the remote API (`gitHubAPI`). -/
def gitHubAPI : String := "https://api.github.com"

/-! Section: JSON field decoding, following Go `encoding/json` unmarshalling -/

/-- Key lookup in a JSON object; with duplicate keys the later value wins,
as in Go unmarshalling. -/
def jLookup (fields : List (String × JValue)) (k : String) : Option JValue :=
  (fields.reverse.find? (fun p => p.1 = k)).map Prod.snd

/-- Decode a `string` struct field: absent or null leaves the zero value `""`;
a JSON string sets it; any other JSON type is an unmarshalling error. -/
def decStr : Option JValue → Option String
  | none => some ""
  | some (.str s) => some s
  | some .null => some ""
  | some _ => none

/-- Decode an `int` struct field. -/
def decInt : Option JValue → Option Int
  | none => some 0
  | some (.num n) => some n
  | some .null => some 0
  | some _ => none

/-- Decode a `bool` struct field. -/
def decBool : Option JValue → Option Bool
  | none => some false
  | some (.jbool b) => some b
  | some .null => some false
  | some _ => none

/-- Decode a `[]string` struct field: absent or null is the nil slice. -/
def decStrList : Option JValue → Option (List String)
  | none => some []
  | some .null => some []
  | some (.arr xs) => xs.mapM (fun v => match v with | .str s => some s | _ => none)
  | some _ => none

/-! Section: Domain records (`Repo`, `Repositories`) -/

/-- The anonymous license struct nested in `Repo`
(`struct \x7b Name string \x7d` with tag `json:"name"`). -/
structure RepoLicense where
  name : String
deriving Repr, DecidableEq

/-- `Repo`, mirroring the JSON shape of a repository record. Field names and
JSON tags are those of the source (including the `Langauge` typo). -/
structure Repo where
  Name : String
  Description : String
  Langauge : String
  DefaultBranch : String
  Stars : Int
  IsFork : Bool
  IsArchived : Bool
  Topics : List String
  HtmlURL : String
  CloneURL : String
  SshURL : String
  License : RepoLicense
deriving Repr, DecidableEq

/-- The Go zero value of `Repo`. -/
def zeroRepo : Repo :=
  ⟨"", "", "", "", 0, false, false, [], "", "", "", ⟨""⟩⟩

/-- Decode the nested license object. -/
def decodeLicense : Option JValue → Option RepoLicense
  | none => some ⟨""⟩
  | some .null => some ⟨""⟩
  | some (.obj fs) => (decStr (jLookup fs "name")).map RepoLicense.mk
  | some _ => none

/-- Unmarshal one JSON value into a `Repo`, per the struct tags:
`name`, `description`, `language`, `default_branch`, `stargazers_count`,
`fork`, `archived`, `topics`, `html_url`, `clone_url`, `ssh_url`, `license`. -/
def decodeRepo : JValue → Option Repo
  | .null => some zeroRepo
  | .obj fs => do
      let name ← decStr (jLookup fs "name")
      let description ← decStr (jLookup fs "description")
      let language ← decStr (jLookup fs "language")
      let defaultBranch ← decStr (jLookup fs "default_branch")
      let stars ← decInt (jLookup fs "stargazers_count")
      let isFork ← decBool (jLookup fs "fork")
      let isArchived ← decBool (jLookup fs "archived")
      let topics ← decStrList (jLookup fs "topics")
      let htmlURL ← decStr (jLookup fs "html_url")
      let cloneURL ← decStr (jLookup fs "clone_url")
      let sshURL ← decStr (jLookup fs "ssh_url")
      let license ← decodeLicense (jLookup fs "license")
      return ⟨name, description, language, defaultBranch, stars, isFork,
              isArchived, topics, htmlURL, cloneURL, sshURL, license⟩
  | _ => none

/-- `Repositories` is a slice of `Repo`. -/
abbrev Repositories := List Repo

/-- Unmarshal a JSON value into `Repositories`. -/
def decodeRepositories : JValue → Option Repositories
  | .arr xs => xs.mapM decodeRepo
  | .null => some []
  | _ => none

/-! Section: API surface operations

Each Go method is split into the pipeline call (`...Do`, exposing the
dispatched request) and the Go-level return mapping, mirroring
`url := fmt.Sprintf(...)` followed by `err := c.api.Do(...)`.
Domain record types that the given sources reference but do not define
(`Release`, `PullRequest`, `RepositoryCommit`) are type parameters together
with their zero value and decoder. -/

/-- `GetRepo`: GET on `<gitHubAPI>/repos/<org>/<name>`. -/
def GetRepoDo (tok : TokenOutcome) (transport : HttpRequest → HttpResponse)
    (org name : String) : DoResult Repo :=
  apiDo (authVisitor tok) transport decodeRepo "GET"
    (gitHubAPI ++ "/repos/" ++ org ++ "/" ++ name) none

/-- `GetRepo` return values: the named result `repo` starts as the zero value
and is only written by a successful unmarshal. -/
def GetRepo (tok : TokenOutcome) (transport : HttpRequest → HttpResponse)
    (org name : String) : Repo × Option PipelineError :=
  match GetRepoDo tok transport org name with
  | .aborted e => (zeroRepo, some (.visitorError e))
  | .dispatched _ (.ok v) => (v, none)
  | .dispatched _ (.error e) => (zeroRepo, some e)

/-- `ListRepositories`: GET on `<gitHubAPI>/users/<org>/repos`. -/
def ListRepositoriesDo (tok : TokenOutcome) (transport : HttpRequest → HttpResponse)
    (org : String) : DoResult Repositories :=
  apiDo (authVisitor tok) transport decodeRepositories "GET"
    (gitHubAPI ++ "/users/" ++ org ++ "/repos") none

/-- `ListRepositories` return values. -/
def ListRepositories (tok : TokenOutcome) (transport : HttpRequest → HttpResponse)
    (org : String) : Repositories × Option PipelineError :=
  match ListRepositoriesDo tok transport org with
  | .aborted e => ([], some (.visitorError e))
  | .dispatched _ (.ok v) => (v, none)
  | .dispatched _ (.error e) => ([], some e)

/-- The anonymous response struct of `CompareCommits`:
only the field `Commits` with tag `json:"commits,omitempty"` is declared,
so decoding keeps the `commits` key and discards every other field. -/
def compareCommitsDecode {C : Type} (dc : JValue → Option C) : JValue → Option (List C)
  | .null => some []
  | .obj fs =>
      match jLookup fs "commits" with
      | none => some []
      | some .null => some []
      | some (.arr xs) => xs.mapM dc
      | some _ => none
  | _ => none

/-- `CompareCommits`: GET on
`<gitHubAPI>/repos/<org>/<repo>/compare/<base>...<head>`. -/
def CompareCommitsDo {C : Type} (dc : JValue → Option C) (tok : TokenOutcome)
    (transport : HttpRequest → HttpResponse)
    (org repo base head : String) : DoResult (List C) :=
  apiDo (authVisitor tok) transport (compareCommitsDecode dc) "GET"
    (gitHubAPI ++ "/repos/" ++ org ++ "/" ++ repo ++ "/compare/" ++ base ++ "..." ++ head)
    none

/-- `CompareCommits` return values: `(response.Commits, err)`. -/
def CompareCommits {C : Type} (dc : JValue → Option C) (tok : TokenOutcome)
    (transport : HttpRequest → HttpResponse)
    (org repo base head : String) : List C × Option PipelineError :=
  match CompareCommitsDo dc tok transport org repo base head with
  | .aborted e => ([], some (.visitorError e))
  | .dispatched _ (.ok v) => (v, none)
  | .dispatched _ (.error e) => ([], some e)

/-- `CreateReleaseRequest`, every field tagged with `omitempty`. -/
structure CreateReleaseRequest where
  TagName : String
  Name : String
  Body : String
  Draft : Bool
  Prerelease : Bool
  GenerateReleaseNotes : Bool
  DiscussionCategoryName : String
deriving Repr, DecidableEq

/-- JSON marshalling of `CreateReleaseRequest`: with `omitempty`, a field is
emitted only when it differs from its zero value (`""` for strings, `false`
for bools), in struct order. -/
def marshalCreateReleaseRequest (r : CreateReleaseRequest) : List (String × JValue) :=
  (if r.TagName = "" then [] else [("tag_name", .str r.TagName)])
  ++ (if r.Name = "" then [] else [("name", .str r.Name)])
  ++ (if r.Body = "" then [] else [("body", .str r.Body)])
  ++ (if r.Draft then [("draft", .jbool r.Draft)] else [])
  ++ (if r.Prerelease then [("prerelease", .jbool r.Prerelease)] else [])
  ++ (if r.GenerateReleaseNotes then [("generate_release_notes", .jbool r.GenerateReleaseNotes)] else [])
  ++ (if r.DiscussionCategoryName = "" then []
      else [("discussion_category_name", .str r.DiscussionCategoryName)])

/-- `CreateRelease`: POST on `<gitHubAPI>/repos/<org>/<repo>/releases` with
the marshalled request as payload. `R` stands for the `Release` record. -/
def CreateReleaseDo {R : Type} (dr : JValue → Option R) (tok : TokenOutcome)
    (transport : HttpRequest → HttpResponse)
    (org repo : String) (req : CreateReleaseRequest) : DoResult R :=
  apiDo (authVisitor tok) transport dr "POST"
    (gitHubAPI ++ "/repos/" ++ org ++ "/" ++ repo ++ "/releases")
    (some (.obj (marshalCreateReleaseRequest req)))

/-- `CreateRelease` return values: `var res Release; ...; return &res, err` —
the returned pointer is always `&res`, hence never nil; on error `res` keeps
the zero value `zr`. -/
def CreateRelease {R : Type} (zr : R) (dr : JValue → Option R) (tok : TokenOutcome)
    (transport : HttpRequest → HttpResponse)
    (org repo : String) (req : CreateReleaseRequest) : Option R × Option PipelineError :=
  match CreateReleaseDo dr tok transport org repo req with
  | .aborted e => (some zr, some (.visitorError e))
  | .dispatched _ (.ok v) => (some v, none)
  | .dispatched _ (.error e) => (some zr, some e)

/-- `CreatePullRequest`: POST on `<gitHubAPI>/repos/<org>/<repo>/pulls`.
`P` stands for the `PullRequest` record; the `NewPullRequest` payload is
carried as an already-marshalled JSON value. On error the source returns
`nil, err` explicitly. -/
def CreatePullRequest {P : Type} (dp : JValue → Option P) (tok : TokenOutcome)
    (transport : HttpRequest → HttpResponse)
    (org repo : String) (payload : JValue) : Option P × Option PipelineError :=
  match apiDo (authVisitor tok) transport dp "POST"
      (gitHubAPI ++ "/repos/" ++ org ++ "/" ++ repo ++ "/pulls") (some payload) with
  | .aborted e => (none, some (.visitorError e))
  | .dispatched _ (.ok v) => (some v, none)
  | .dispatched _ (.error e) => (none, some e)

/-- `GetPullRequest`: GET on `<gitHubAPI>/repos/<org>/<repo>/pulls/<number>`;
returns `&res, err`, so the pointer is never nil and on error holds the zero
value `zp`. -/
def GetPullRequest {P : Type} (zp : P) (dp : JValue → Option P) (tok : TokenOutcome)
    (transport : HttpRequest → HttpResponse)
    (org repo : String) (number : Int) : Option P × Option PipelineError :=
  match apiDo (authVisitor tok) transport dp "GET"
      (gitHubAPI ++ "/repos/" ++ org ++ "/" ++ repo ++ "/pulls/" ++ toString number) none with
  | .aborted e => (some zp, some (.visitorError e))
  | .dispatched _ (.ok v) => (some v, none)
  | .dispatched _ (.error e) => (some zp, some e)

/-! Section: TTL cache -/

/-- `time.Hour` in nanoseconds. -/
def hourNs : Nat := 3600 * 1000000000

/-- `repositoryCacheTTL = 24 * time.Hour`. -/
def repositoryCacheTTL : Nat := 24 * hourNs

/-- A persisted cache entry: value plus the instant it was fetched. -/
structure CacheEntry (T : Type) where
  value : T
  fetchedAt : Nat
deriving Repr, DecidableEq

/-- One load outcome: the returned value or error, the durable state after
the call, and whether `computeFn` was invoked. -/
structure LoadOutcome (T E : Type) where
  result : Except E T
  after : Option (CacheEntry T)
  computeInvoked : Bool

/-- Recompute step shared by the Absent, Stale and Corrupt states: invoke
`computeFn`; on success persist the fresh entry and return the value; on
failure propagate the error and leave the durable state unchanged
(no partial write). -/
def localCacheRecompute {T E : Type} (now : Nat) (st : Option (CacheEntry T))
    (computeFn : Except E T) : LoadOutcome T E :=
  match computeFn with
  | .ok v => ⟨.ok v, some ⟨v, now⟩, true⟩
  | .error e => ⟨.error e, st, true⟩

/-- Modelled from the spec: `localcache.LocalCache[T].Load` (the package
`go-libs/localcache` is not among the given sources). Per cache key:
Absent (no entry) recomputes; Fresh (`now - fetchedAt < TTL`) returns the
stored value without invoking `computeFn`; Stale (`now - fetchedAt >= TTL`)
recomputes and overwrites. A corrupt entry behaves like Stale; corruption
is not needed by the claims and is not modelled. -/
def localCacheLoad {T E : Type} (ttl now : Nat) (st : Option (CacheEntry T))
    (computeFn : Except E T) : LoadOutcome T E :=
  match st with
  | some e =>
      if now - e.fetchedAt < ttl then ⟨.ok e.value, some e, false⟩
      else localCacheRecompute now st computeFn
  | none => localCacheRecompute now st computeFn

/-- The durable cache key built by `NewRepositoryCache`:
`fmt.Sprintf("%s-repositories", org)`. -/
def repositoryCacheFilename (org : String) : String :=
  org ++ "-repositories"

/-- The repository cache handle produced by `NewRepositoryCache`: it wires
the local cache (addressed by `repositoryCacheFilename org`, with TTL
`repositoryCacheTTL`) to the given org. -/
structure RepositoryCacheHandle where
  cacheKey : String
  Org : String
  ttl : Nat
deriving Repr, DecidableEq

/-- `NewRepositoryCache` (the `cacheDir` only locates the store and does not
affect the key within it). -/
def NewRepositoryCache (org : String) : RepositoryCacheHandle :=
  ⟨repositoryCacheFilename org, org, repositoryCacheTTL⟩

/-- `repositoryCache.Load`: delegate to the local cache with `computeFn`
being `ListRepositories` for the handle org. -/
def repositoryCacheLoad (h : RepositoryCacheHandle) (now : Nat)
    (st : Option (CacheEntry Repositories)) (tok : TokenOutcome)
    (transport : HttpRequest → HttpResponse) : LoadOutcome Repositories PipelineError :=
  localCacheLoad h.ttl now st
    (match ListRepositories tok transport h.Org with
     | (v, none) => .ok v
     | (_, some e) => .error e)

/-! Section: Theorems -/

/-- C1: for every request issued through a client built by `NewClient`, when
the Token Source succeeds with a credential, the dispatched request carries
the Authorization header `"<tokenType> <accessToken>"` formed from that
credential. -/
theorem auth_header_stamped {α : Type} (cred : Credential)
    (transport : HttpRequest → HttpResponse) (decode : JValue → Option α)
    (method url : String) (payload : Option JValue)
    (sent : HttpRequest) (res : Except PipelineError α)
    (h : apiDo (authVisitor (.ok cred)) transport decode method url payload
      = .dispatched sent res) :
    getHeader sent "Authorization"
      = some (cred.tokenType ++ " " ++ cred.accessToken) := by
  unfold apiDo authVisitor at h
  simp only [] at h
  split at h <;>
    first
      | (split at h <;> (cases h; simp [getHeader, setHeader]))
      | (cases h; simp [getHeader, setHeader])

/-- Witness for C1 at a concrete credential, transport and request. -/
theorem auth_header_stamped_witness :
    getHeader (setHeader ⟨"GET", "u", [], none⟩ "Authorization" ("Bearer" ++ " " ++ "tkn"))
        "Authorization"
      = some ("Bearer" ++ " " ++ "tkn") :=
  auth_header_stamped ⟨"Bearer", "tkn"⟩ (fun _ => ⟨200, JValue.null⟩) (fun _ => some ())
    "GET" "u" none _ (Except.ok ()) rfl

/-- C2: when the Token Source fails, the pipeline aborts with the wrapped
error `"token: <err>"` and the request is never dispatched: no network call
is made. -/
theorem token_error_aborts {α : Type} (e : String)
    (transport : HttpRequest → HttpResponse) (decode : JValue → Option α)
    (method url : String) (payload : Option JValue) :
    apiDo (authVisitor (.error e)) transport decode method url payload
      = .aborted ("token: " ++ e)
    ∧ ∀ (sent : HttpRequest) (res : Except PipelineError α),
        apiDo (authVisitor (.error e)) transport decode method url payload
          ≠ .dispatched sent res := by
  have h0 : apiDo (authVisitor (.error e)) transport decode method url payload
      = DoResult.aborted (α := α) ("token: " ++ e) := rfl
  refine ⟨h0, fun sent res h => ?_⟩
  rw [h0] at h
  exact DoResult.noConfusion h

/-- Witness for C2 at a concrete token failure. -/
theorem token_error_aborts_witness :
    apiDo (α := Unit) (authVisitor (.error "boom")) (fun _ => ⟨200, JValue.null⟩)
        (fun _ => some ()) "GET" "u" none
      = .aborted ("token: " ++ "boom") :=
  (token_error_aborts "boom" (fun _ => ⟨200, JValue.null⟩) (fun _ => some ())
    "GET" "u" none).1

/-- C3: after a successful load that computed and persisted a fresh value
`v` at `t0`, any load within the TTL (`now - t0 < repositoryCacheTTL`)
returns the identical stored value without invoking the compute function,
whatever token source and transport the second call would have used. -/
theorem cache_fresh_hit_no_recompute (org : String) (tok tok2 : TokenOutcome)
    (transport transport2 : HttpRequest → HttpResponse)
    (st0 : Option (CacheEntry Repositories)) (t0 now : Nat) (v : Repositories)
    (h1 : repositoryCacheLoad (NewRepositoryCache org) t0 st0 tok transport
      = ⟨.ok v, some ⟨v, t0⟩, true⟩)
    (hfresh : now - t0 < repositoryCacheTTL) :
    repositoryCacheLoad (NewRepositoryCache org) now (some ⟨v, t0⟩) tok2 transport2
      = ⟨.ok v, some ⟨v, t0⟩, false⟩ := by
  unfold repositoryCacheLoad localCacheLoad NewRepositoryCache
  simp [hfresh]

/-- Witness for C3: a first load from the Absent state computes and persists
the empty listing at time 0; a second load at time 1 hits the fresh entry. -/
theorem cache_fresh_hit_no_recompute_witness :
    repositoryCacheLoad (NewRepositoryCache "acme") 1 (some ⟨[], 0⟩)
        (.error "x") (fun _ => ⟨500, .null⟩)
      = ⟨.ok [], some ⟨[], 0⟩, false⟩ :=
  cache_fresh_hit_no_recompute "acme" (.ok ⟨"Bearer", "t"⟩) (.error "x")
    (fun _ => ⟨200, .arr []⟩) (fun _ => ⟨500, .null⟩) none 0 1 [] rfl (by decide)

/-- C4 counterexample: the durable cache key is not of the form
`<fixed prefix>-<scope>`: no fixed string `p` satisfies
`key = p ++ "-" ++ scope` for every scope, because at scope `"a"` the
derived key `"a-repositories"` ends in the fixed stem, not in the scope. -/
theorem cache_key_counterexample :
    ¬ ∃ p : String, ∀ org : String,
      (NewRepositoryCache org).cacheKey = p ++ "-" ++ org := by
  rintro ⟨p, hp⟩
  have h1 : ("a" : String) ++ "-repositories" = p ++ "-" ++ "a" := hp "a"
  have h2 := congrArg (fun s : String => s.data.getLast?) h1
  simp [String.data_append, List.getLast?_append] at h2

/-- C4 (amended): the durable cache key is the scope identifier followed by
the fixed stem, `<scope>-repositories`; the derivation is injective, giving
exactly one cache slot per scope. -/
theorem cache_key_scope_then_stem :
    (∀ org : String, (NewRepositoryCache org).cacheKey = org ++ "-repositories")
    ∧ ∀ a b : String, repositoryCacheFilename a = repositoryCacheFilename b → a = b := by
  refine ⟨fun org => rfl, fun a b h => ?_⟩
  have h2 := congrArg String.data h
  simp only [repositoryCacheFilename, String.data_append] at h2
  exact String.ext (List.append_cancel_right h2)

/-- Witness for the amended C4 at the scope `"acme"`. -/
theorem cache_key_scope_then_stem_witness :
    (NewRepositoryCache "acme").cacheKey = "acme" ++ "-repositories"
    ∧ ("acme" : String) = "acme" :=
  ⟨cache_key_scope_then_stem.1 "acme", cache_key_scope_then_stem.2 "acme" "acme" rfl⟩

/-- C5: from the Absent state, when the compute function (the live
repository listing) fails, the load propagates that error and the durable
state stays absent — no partial write. -/
theorem compute_error_leaves_absent (org : String) (now : Nat)
    (tok : TokenOutcome) (transport : HttpRequest → HttpResponse)
    (e : PipelineError)
    (herr : ListRepositories tok transport org = ([], some e)) :
    repositoryCacheLoad (NewRepositoryCache org) now none tok transport
      = ⟨.error e, none, true⟩ := by
  simp [repositoryCacheLoad, localCacheLoad, localCacheRecompute,
    NewRepositoryCache, herr]

/-- Witness for C5: a failing token source makes the compute function fail;
the load returns the error and leaves storage absent. -/
theorem compute_error_leaves_absent_witness :
    repositoryCacheLoad (NewRepositoryCache "acme") 5 none (.error "boom")
        (fun _ => ⟨200, .null⟩)
      = ⟨.error (.visitorError ("token: " ++ "boom")), none, true⟩ :=
  compute_error_leaves_absent "acme" 5 (.error "boom") (fun _ => ⟨200, .null⟩)
    (.visitorError ("token: " ++ "boom")) rfl

/-- C6: `CompareCommits` issues GET on
`<gitHubAPI>/repos/<org>/<repo>/compare/<base>...<head>` and returns exactly
the decoded `commits` field of the comparison response, discarding every
other field of the response object, together with the pipeline error
(none on this success path). -/
theorem compareCommits_get_path_and_commits_field {C : Type}
    (dc : JValue → Option C) (cred : Credential) (org repo base head : String)
    (fs : List (String × JValue)) (xs : List JValue) (cs : List C)
    (hcommits : jLookup fs "commits" = some (.arr xs))
    (hdec : xs.mapM dc = some cs) :
    ∃ sent : HttpRequest,
      CompareCommitsDo dc (.ok cred) (fun _ => ⟨200, .obj fs⟩) org repo base head
        = .dispatched sent (.ok cs)
      ∧ sent.method = "GET"
      ∧ sent.url = gitHubAPI ++ "/repos/" ++ org ++ "/" ++ repo ++ "/compare/"
          ++ base ++ "..." ++ head
      ∧ CompareCommits dc (.ok cred) (fun _ => ⟨200, .obj fs⟩) org repo base head
        = (cs, none) := by
  have hdo : CompareCommitsDo dc (.ok cred) (fun _ => ⟨200, .obj fs⟩) org repo base head
      = .dispatched
          (setHeader
            ⟨"GET",
             gitHubAPI ++ "/repos/" ++ org ++ "/" ++ repo ++ "/compare/"
               ++ base ++ "..." ++ head, [], none⟩
            "Authorization" (cred.tokenType ++ " " ++ cred.accessToken))
          (.ok cs) := by
    have hdec' : List.mapM.loop dc xs [] = some cs := by
      simpa [List.mapM] using hdec
    unfold CompareCommitsDo apiDo authVisitor compareCommitsDecode
    simp [hcommits, hdec', is2xx]
  exact ⟨_, hdo, rfl, rfl, by simp [CompareCommits, hdo]⟩

/-- Witness for C6: a comparison response with an extra `ahead_by` field and
one commit; only the commit list is returned. -/
theorem compareCommits_witness :
    ∃ sent : HttpRequest,
      CompareCommitsDo (fun v => match v with | .str s => some s | _ => none)
          (.ok ⟨"Bearer", "t"⟩)
          (fun _ => ⟨200, .obj [("ahead_by", .num 2), ("commits", .arr [.str "abc"])]⟩)
          "o" "r" "b" "h"
        = .dispatched sent (.ok ["abc"])
      ∧ sent.method = "GET"
      ∧ sent.url = gitHubAPI ++ "/repos/" ++ "o" ++ "/" ++ "r" ++ "/compare/"
          ++ "b" ++ "..." ++ "h"
      ∧ CompareCommits (fun v => match v with | .str s => some s | _ => none)
          (.ok ⟨"Bearer", "t"⟩)
          (fun _ => ⟨200, .obj [("ahead_by", .num 2), ("commits", .arr [.str "abc"])]⟩)
          "o" "r" "b" "h"
        = (["abc"], none) :=
  compareCommits_get_path_and_commits_field
    (fun v => match v with | .str s => some s | _ => none)
    ⟨"Bearer", "t"⟩ "o" "r" "b" "h"
    [("ahead_by", .num 2), ("commits", .arr [.str "abc"])]
    [.str "abc"] ["abc"] rfl rfl

/-- C7: `ListRepositories` issues GET on `<gitHubAPI>/users/<org>/repos`,
and for a remote answering `[ \x7b "name": "x", "stargazers_count": 5 \x7d ]`
it returns a one-element slice whose entry has `Name = "x"` and `Stars = 5`
(all other fields keep their zero values). -/
theorem listRepositories_scenario (cred : Credential) (org : String) :
    ∃ sent : HttpRequest,
      ListRepositoriesDo (.ok cred)
          (fun _ => ⟨200, .arr [.obj [("name", .str "x"), ("stargazers_count", .num 5)]]⟩)
          org
        = .dispatched sent (.ok [{ zeroRepo with Name := "x", Stars := 5 }])
      ∧ sent.method = "GET"
      ∧ sent.url = gitHubAPI ++ "/users/" ++ org ++ "/repos"
      ∧ ListRepositories (.ok cred)
          (fun _ => ⟨200, .arr [.obj [("name", .str "x"), ("stargazers_count", .num 5)]]⟩)
          org
        = ([{ zeroRepo with Name := "x", Stars := 5 }], none) :=
  ⟨_, rfl, rfl, rfl, rfl⟩

/-- C8: a non-2xx response to `GetRepo` yields an API error carrying the
status and body; the returned repository is the zero value, never a
deserialization of the error body. -/
theorem getRepo_api_error_zero_value (cred : Credential) (org name : String)
    (st : Nat) (errBody : JValue) (hst : is2xx st = false) :
    GetRepo (.ok cred) (fun _ => ⟨st, errBody⟩) org name
      = (zeroRepo, some (.apiError st errBody)) := by
  unfold GetRepo GetRepoDo apiDo authVisitor
  simp [hst]

/-- Witness for C8: a 403 response. -/
theorem getRepo_api_error_zero_value_witness :
    GetRepo (.ok ⟨"Bearer", "t"⟩) (fun _ => ⟨403, .null⟩) "acme" "widget"
      = (zeroRepo, some (.apiError 403 .null)) :=
  getRepo_api_error_zero_value ⟨"Bearer", "t"⟩ "acme" "widget" 403 .null rfl

/-- C9: on a pipeline error, `CreatePullRequest` returns a nil pointer,
while `CreateRelease` and `GetPullRequest` return a non-nil pointer to the
zero-valued record alongside the error: the error-path pointer conventions
differ across the create/get operations. -/
theorem error_pointer_conventions {P R : Type} (zp : P) (dp : JValue → Option P)
    (zr : R) (dr : JValue → Option R) (tok : TokenOutcome)
    (transport : HttpRequest → HttpResponse) (org repo : String)
    (payload : JValue) (req : CreateReleaseRequest) (number : Int)
    (e₁ e₂ e₃ : PipelineError)
    (h1 : (CreatePullRequest dp tok transport org repo payload).2 = some e₁)
    (h2 : (CreateRelease zr dr tok transport org repo req).2 = some e₂)
    (h3 : (GetPullRequest zp dp tok transport org repo number).2 = some e₃) :
    (CreatePullRequest dp tok transport org repo payload).1 = none
    ∧ (CreateRelease zr dr tok transport org repo req).1 = some zr
    ∧ (GetPullRequest zp dp tok transport org repo number).1 = some zp := by
  refine ⟨?_, ?_, ?_⟩
  · unfold CreatePullRequest at h1 ⊢
    split at h1 <;> simp_all
  · unfold CreateRelease at h2 ⊢
    split at h2 <;> simp_all
  · unfold GetPullRequest at h3 ⊢
    split at h3 <;> simp_all

/-- Witness for C9: a failing token source makes every pipeline call error;
the three operations then disagree on pointer nil-ness. -/
theorem error_pointer_conventions_witness :
    (CreatePullRequest (fun _ => some (() : Unit)) (.error "boom")
        (fun _ => ⟨200, .null⟩) "o" "r" .null).1 = none
    ∧ (CreateRelease () (fun _ => some (() : Unit)) (.error "boom")
        (fun _ => ⟨200, .null⟩) "o" "r" ⟨"", "", "", false, false, false, ""⟩).1 = some ()
    ∧ (GetPullRequest () (fun _ => some (() : Unit)) (.error "boom")
        (fun _ => ⟨200, .null⟩) "o" "r" 7).1 = some () :=
  error_pointer_conventions () (fun _ => some ()) () (fun _ => some ())
    (.error "boom") (fun _ => ⟨200, .null⟩) "o" "r" .null
    ⟨"", "", "", false, false, false, ""⟩ 7
    (.visitorError ("token: " ++ "boom")) (.visitorError ("token: " ++ "boom"))
    (.visitorError ("token: " ++ "boom")) rfl rfl rfl

/-- Any pair in the marshalled `CreateReleaseRequest` payload comes from a
non-zero field, with its struct-tag key and the field value. -/
theorem key_of_mem_marshal (r : CreateReleaseRequest) (k : String) (v : JValue)
    (hmem : (k, v) ∈ marshalCreateReleaseRequest r) :
    (k = "tag_name" ∧ r.TagName ≠ "" ∧ v = .str r.TagName)
    ∨ (k = "name" ∧ r.Name ≠ "" ∧ v = .str r.Name)
    ∨ (k = "body" ∧ r.Body ≠ "" ∧ v = .str r.Body)
    ∨ (k = "draft" ∧ r.Draft = true ∧ v = .jbool true)
    ∨ (k = "prerelease" ∧ r.Prerelease = true ∧ v = .jbool true)
    ∨ (k = "generate_release_notes" ∧ r.GenerateReleaseNotes = true ∧ v = .jbool true)
    ∨ (k = "discussion_category_name" ∧ r.DiscussionCategoryName ≠ ""
        ∧ v = .str r.DiscussionCategoryName) := by
  unfold marshalCreateReleaseRequest at hmem
  split_ifs at hmem <;> simp_all

/-- C10: every field of `CreateReleaseRequest` is serialized with
`omitempty`: the payload sent by `CreateRelease` is the marshalled object,
any zero-valued field is absent from it, and in particular `draft = false`
or `prerelease = false` can never be transmitted. -/
theorem createRelease_omitempty {R : Type} (dr : JValue → Option R)
    (cred : Credential) (transport : HttpRequest → HttpResponse)
    (org repo : String) (req : CreateReleaseRequest)
    (sent : HttpRequest) (res : Except PipelineError R)
    (hsent : CreateReleaseDo dr (.ok cred) transport org repo req
      = .dispatched sent res) :
    sent.reqBody = some (.obj (marshalCreateReleaseRequest req))
    ∧ (req.TagName = "" → ∀ v, ("tag_name", v) ∉ marshalCreateReleaseRequest req)
    ∧ (req.Name = "" → ∀ v, ("name", v) ∉ marshalCreateReleaseRequest req)
    ∧ (req.Body = "" → ∀ v, ("body", v) ∉ marshalCreateReleaseRequest req)
    ∧ (req.Draft = false → ∀ v, ("draft", v) ∉ marshalCreateReleaseRequest req)
    ∧ (req.Prerelease = false →
        ∀ v, ("prerelease", v) ∉ marshalCreateReleaseRequest req)
    ∧ (req.GenerateReleaseNotes = false →
        ∀ v, ("generate_release_notes", v) ∉ marshalCreateReleaseRequest req)
    ∧ (req.DiscussionCategoryName = "" →
        ∀ v, ("discussion_category_name", v) ∉ marshalCreateReleaseRequest req)
    ∧ ("draft", JValue.jbool false) ∉ marshalCreateReleaseRequest req
    ∧ ("prerelease", JValue.jbool false) ∉ marshalCreateReleaseRequest req := by
  refine ⟨?_, ?_, ?_, ?_, ?_, ?_, ?_, ?_, ?_, ?_⟩
  · unfold CreateReleaseDo apiDo authVisitor at hsent
    simp only [] at hsent
    split at hsent <;>
      first
        | (split at hsent <;> (cases hsent; simp [setHeader]))
        | (cases hsent; simp [setHeader])
  · intro h v hmem
    have := key_of_mem_marshal req "tag_name" v hmem
    simp [h] at this
  · intro h v hmem
    have := key_of_mem_marshal req "name" v hmem
    simp [h] at this
  · intro h v hmem
    have := key_of_mem_marshal req "body" v hmem
    simp [h] at this
  · intro h v hmem
    have := key_of_mem_marshal req "draft" v hmem
    simp [h] at this
  · intro h v hmem
    have := key_of_mem_marshal req "prerelease" v hmem
    simp [h] at this
  · intro h v hmem
    have := key_of_mem_marshal req "generate_release_notes" v hmem
    simp [h] at this
  · intro h v hmem
    have := key_of_mem_marshal req "discussion_category_name" v hmem
    simp [h] at this
  · intro hmem
    have := key_of_mem_marshal req "draft" (.jbool false) hmem
    simp at this
  · intro hmem
    have := key_of_mem_marshal req "prerelease" (.jbool false) hmem
    simp at this

/-- Witness for C10: for the request holding only `TagName = "v1.0"`,
no `draft` key and no `prerelease = false` pair is ever sent. -/
theorem createRelease_omitempty_witness :
    (∀ v, ("draft", v)
      ∉ marshalCreateReleaseRequest ⟨"v1.0", "", "", false, false, false, ""⟩)
    ∧ ("prerelease", JValue.jbool false)
      ∉ marshalCreateReleaseRequest ⟨"v1.0", "", "", false, false, false, ""⟩ := by
  have h := createRelease_omitempty (fun _ => some (() : Unit)) ⟨"Bearer", "t"⟩
    (fun _ => ⟨200, .null⟩) "o" "r" ⟨"v1.0", "", "", false, false, false, ""⟩
    (setHeader
      ⟨"POST", gitHubAPI ++ "/repos/" ++ "o" ++ "/" ++ "r" ++ "/releases", [],
        some (.obj (marshalCreateReleaseRequest
          ⟨"v1.0", "", "", false, false, false, ""⟩))⟩
      "Authorization" ("Bearer" ++ " " ++ "t"))
    (Except.ok ()) rfl
  exact ⟨h.2.2.2.2.1 rfl, h.2.2.2.2.2.2.2.2.2⟩

end GithubSpec
